import Mathlib

/-!
Verification development for the Premier League dashboard (`src/app.py`).

The file shallowly embeds the data pipeline of the dashboard: the CSV
loader/normaliser `load_data` and the aggregation computations of the
"Análise por Time" / "Comparação entre Times" / "Testes de Hipótese" pages
(performance percentage, efficiency, head-to-head filter, team totals with
home/away merge, and per-season champion determination).

Modelling conventions:
* a pandas DataFrame is a `List Row`; a raw CSV is a `RawCSV` (the list of
  column names present in the file plus the per-row raw values);
* a missing value (NaN) is `Option.none`; pandas `.sum()` skips NaN, which is
  modelled with `Option.getD 0`;
* Python exceptions are modelled with `Except PyError`; Python's true
  division is `pydiv`, which raises `ZeroDivisionError` on a zero divisor;
* pandas sorts are modelled with the stable `List.insertionSort` (pandas'
  default quicksort leaves the relative order of ties unspecified; every
  tie-sensitive statement below is flagged where it appears);
* lexicographic string comparison (pandas `<` on object columns) is modelled
  by `strLt`, a character-by-character comparison that the kernel can
  evaluate.
-/

namespace PremierLeague

/-- Kinds of Python exceptions relevant to the pipeline: `KeyError` (column
access on a frame lacking the column), `ValueError` (date not matching the
fixed `%d/%m/%Y` format), `ZeroDivisionError` (integer division by zero). -/
inductive PyError where
  | keyError
  | valueError
  | zeroDivisionError
deriving DecidableEq

instance {ε α : Type} [DecidableEq ε] [DecidableEq α] : DecidableEq (Except ε α) := fun
  | .ok a, .ok b =>
    if h : a = b then .isTrue (by rw [h]) else .isFalse (by intro hh; cases hh; exact h rfl)
  | .error a, .error b =>
    if h : a = b then .isTrue (by rw [h]) else .isFalse (by intro hh; cases hh; exact h rfl)
  | .ok _, .error _ => .isFalse (by intro hh; cases hh)
  | .error _, .ok _ => .isFalse (by intro hh; cases hh)

/-- Python's true division `a / b`: raises `ZeroDivisionError` when the
divisor is zero, otherwise returns the exact quotient. -/
def pydiv (a b : ℚ) : Except PyError ℚ :=
  if b = 0 then .error .zeroDivisionError else .ok (a / b)

/-! ### Lexicographic string comparison

Character-by-character `<` on the underlying character lists, the ordering
pandas uses for string (object) columns in comparisons and sorts. -/

/-- Lexicographic strict comparison of character lists. -/
def strLtL : List Char → List Char → Bool
  | _, [] => false
  | [], _ :: _ => true
  | c :: cs, d :: ds => if c < d then true else if d < c then false else strLtL cs ds

/-- Lexicographic strict comparison of strings (pandas `<` on object dtype). -/
def strLt (a b : String) : Bool :=
  strLtL a.data b.data

theorem strLtL_nil_right : ∀ l : List Char, strLtL l [] = false := by
  intro l; cases l <;> rfl

theorem strLtL_cons_iff {a b : Char} {as bs : List Char} :
    strLtL (a :: as) (b :: bs) = true ↔ a < b ∨ (a = b ∧ strLtL as bs = true) := by
  simp only [strLtL]
  split_ifs with h1 h2
  · simp [h1]
  · constructor
    · intro h; simp at h
    · rintro (h | ⟨rfl, _⟩)
      · exact absurd h h1
      · exact absurd h2 (lt_irrefl a)
  · have heq : a = b := le_antisymm (not_lt.mp h2) (not_lt.mp h1)
    simp [h1, heq]

theorem strLtL_cons_false_iff {a b : Char} {as bs : List Char} :
    strLtL (a :: as) (b :: bs) = false ↔ b < a ∨ (a = b ∧ strLtL as bs = false) := by
  simp only [strLtL]
  split_ifs with h1 h2
  · constructor
    · intro h; simp at h
    · rintro (h | ⟨rfl, _⟩)
      · exact absurd (lt_trans h h1) (lt_irrefl b)
      · exact absurd h1 (lt_irrefl a)
  · simp [h2]
  · have heq : a = b := le_antisymm (not_lt.mp h2) (not_lt.mp h1)
    simp [h2, heq]

theorem strLtL_irrefl : ∀ l : List Char, strLtL l l = false
  | [] => rfl
  | c :: cs => by
      rw [strLtL_cons_false_iff]
      exact Or.inr ⟨rfl, strLtL_irrefl cs⟩

theorem strLtL_trans : ∀ a b c : List Char,
    strLtL a b = true → strLtL b c = true → strLtL a c = true := by
  intro a
  induction a with
  | nil =>
    intro b c _ h2
    cases c with
    | cons z zs => rfl
    | nil => rw [strLtL_nil_right] at h2; cases h2
  | cons x xs ih =>
    intro b c h1 h2
    cases b with
    | nil => rw [strLtL_nil_right] at h1; cases h1
    | cons y ys =>
      cases c with
      | nil => rw [strLtL_nil_right] at h2; cases h2
      | cons z zs =>
        rw [strLtL_cons_iff] at h1 h2 ⊢
        rcases h1 with h1 | ⟨rfl, h1⟩
        · rcases h2 with h2 | ⟨rfl, _⟩
          · exact Or.inl (lt_trans h1 h2)
          · exact Or.inl h1
        · rcases h2 with h2 | ⟨rfl, h2⟩
          · exact Or.inl h2
          · exact Or.inr ⟨rfl, ih ys zs h1 h2⟩

theorem strLtL_connex : ∀ a b : List Char,
    strLtL a b = false → strLtL b a = false → a = b := by
  intro a
  induction a with
  | nil =>
    intro b h1 _
    cases b with
    | nil => rfl
    | cons y ys => cases h1
  | cons x xs ih =>
    intro b h1 h2
    cases b with
    | nil => cases h2
    | cons y ys =>
      rw [strLtL_cons_false_iff] at h1 h2
      rcases h1 with h1 | ⟨rfl, h1⟩
      · rcases h2 with h2 | ⟨heq, _⟩
        · exact absurd (lt_trans h1 h2) (lt_irrefl y)
        · exact absurd h1 (heq ▸ lt_irrefl x)
      · rcases h2 with h2 | ⟨_, h2⟩
        · exact absurd h2 (lt_irrefl x)
        · rw [ih ys h1 h2]

theorem strLt_irrefl (s : String) : strLt s s = false :=
  strLtL_irrefl s.data

theorem strLt_trans {a b c : String} (h1 : strLt a b = true) (h2 : strLt b c = true) :
    strLt a c = true :=
  strLtL_trans a.data b.data c.data h1 h2

theorem strLt_connex {a b : String} (h1 : strLt a b = false) (h2 : strLt b a = false) :
    a = b := by
  cases a with
  | mk da =>
    cases b with
    | mk db => exact congrArg String.mk (strLtL_connex da db h1 h2)

/-! ### Date parsing

Models `pd.to_datetime(df['Data'], format='%d/%m/%Y')`: the string must be
three numeric slash-separated fields, day/month/year, with the day and month
in calendar range (full month-length validation is abstracted away; no claim
depends on it). An unparseable date raises `ValueError`. -/

/-- Value of a decimal digit character, `none` when not a digit. -/
def charDigit (c : Char) : Option Nat :=
  if 48 ≤ c.toNat ∧ c.toNat ≤ 57 then some (c.toNat - 48) else none

/-- Decimal value of a digit list, accumulator style; `none` on a non-digit. -/
def digitsValAux : Nat → List Char → Option Nat
  | acc, [] => some acc
  | acc, c :: cs =>
    match charDigit c with
    | some d => digitsValAux (acc * 10 + d) cs
    | none => none

/-- Decimal value of a nonempty digit list. -/
def digitsVal (cs : List Char) : Option Nat :=
  if cs.isEmpty then none else digitsValAux 0 cs

/-- Split a character list on `/`. -/
def splitSlash : List Char → List (List Char)
  | [] => [[]]
  | c :: cs =>
    if c = '/' then [] :: splitSlash cs
    else
      match splitSlash cs with
      | [] => [[c]]
      | g :: gs => (c :: g) :: gs

/-- Parse a `%d/%m/%Y` date string into `(day, month, year)`. -/
def parseDate (s : String) : Option (Nat × Nat × Nat) :=
  match (splitSlash s.data).map digitsVal with
  | [some d, some m, some y] =>
    if 1 ≤ d ∧ d ≤ 31 ∧ 1 ≤ m ∧ m ≤ 12 then some (d, m, y) else none
  | _ => none

/-! ### Raw data model

One raw CSV record, with the column names of `England CSV.csv`. The
full-time goal columns, result code, date, season and team names are always
populated in the source file; the detailed in-match statistics (and the
referee, and the half-time data) can be missing (NaN), hence `Option`. -/

structure RawRow where
  Date : String
  Season : String
  HomeTeam : String
  AwayTeam : String
  FTH_Goals : Int
  FTA_Goals : Int
  FT_Result : String
  HTH_Goals : Option Int
  HTA_Goals : Option Int
  HT_Result : Option String
  H_Shots : Option Int
  A_Shots : Option Int
  H_SOT : Option Int
  A_SOT : Option Int
  H_Fouls : Option Int
  A_Fouls : Option Int
  H_Corners : Option Int
  A_Corners : Option Int
  H_Yellow : Option Int
  A_Yellow : Option Int
  H_Red : Option Int
  A_Red : Option Int
  Referee : Option String
deriving DecidableEq

/-- A raw CSV file: the set of column names actually present in the file,
plus the row data. `pandas.rename` silently skips absent columns, so a
missing column surfaces only when some later step accesses it (`KeyError`). -/
structure RawCSV where
  cols : List String
  rows : List RawRow
deriving DecidableEq

/-- A normalised row of the in-memory table produced by `load_data`
(canonical column names of `src/app.py` lines 39-48 plus the derived
columns of lines 51-58 and 70-77). `Campeao` is the column that the
"Testes de Hipótese" page later writes onto the working table (line 403);
it does not exist right after loading, which is modelled by `none`. -/
structure Row where
  Data : Nat × Nat × Nat
  Temporada : String
  Time_Casa : String
  Time_Visitante : String
  Gols_Time_Casa : Int
  Gols_Time_Visitante : Int
  Resultado_Final : Option String
  Gols_Casa_1T : Option Int
  Gols_Visitante_1T : Option Int
  Resultado_1T : Option String
  Chutes_Casa : Option Int
  Chutes_Visitante : Option Int
  Chutes_Gol_Casa : Option Int
  Chutes_Gol_Visitante : Option Int
  Faltas_Casa : Option Int
  Faltas_Visitante : Option Int
  Escanteios_Casa : Option Int
  Escanteios_Visitante : Option Int
  Amarelos_Casa : Option Int
  Amarelos_Visitante : Option Int
  Vermelhos_Casa : Option Int
  Vermelhos_Visitante : Option Int
  Arbitro : String
  Dif_Gols : Int
  Total_Gols : Int
  Vitoria_Casa : Int
  Empate : Int
  Vitoria_Visitante : Int
  Intensidade_Ofensiva : Option Int
  Total_Faltas : Option Int
  Total_Vermelhos : Option Int
  Estatisticas_Completas : Bool
  Periodo_Completo : Bool
  Campeao : Option Bool
deriving DecidableEq

/-! ### Loader / normaliser (`load_data`, `src/app.py` lines 31-79) -/

/-- Line 62: `df['Resultado_Final'].map({'H': ..., 'A': ..., 'D': ...})`.
pandas `Series.map` with a dict sends every key NOT in the dict to NaN
(it does not raise), hence `none` for any code outside H/A/D. -/
def mapResultado (code : String) : Option String :=
  if code = "H" then some "Vitória Casa"
  else if code = "A" then some "Vitória Visitante"
  else if code = "D" then some "Empate"
  else none

/-- Line 65: the team-name alias table
`{"Brighton": "Brighton & Hove Albion", "Ipswich": "Ipswich Town"}`;
`Series.replace` leaves every other name unchanged. -/
def team_mapping (t : String) : String :=
  if t = "Brighton" then "Brighton & Hove Albion"
  else if t = "Ipswich" then "Ipswich Town"
  else t

/-- NaN-propagating addition of two optional columns (pandas `+` on two
Series is NaN whenever either operand is NaN). -/
def optAdd (a b : Option Int) : Option Int :=
  match a, b with
  | some x, some y => some (x + y)
  | _, _ => none

/-- Per-row normalisation: renaming (lines 39-48), derived columns
(lines 51-58), result-code mapping (line 62), alias normalisation
(lines 66-67), referee fill (line 36) and the two quality flags
(lines 70-77). `Periodo_Completo` is the lexicographic string comparison
`Temporada >= '2000/01'`. -/
def mkRow (rr : RawRow) : Row where
  Data := (parseDate rr.Date).getD (0, 0, 0)
  Temporada := rr.Season
  Time_Casa := team_mapping rr.HomeTeam
  Time_Visitante := team_mapping rr.AwayTeam
  Gols_Time_Casa := rr.FTH_Goals
  Gols_Time_Visitante := rr.FTA_Goals
  Resultado_Final := mapResultado rr.FT_Result
  Gols_Casa_1T := rr.HTH_Goals
  Gols_Visitante_1T := rr.HTA_Goals
  Resultado_1T := rr.HT_Result
  Chutes_Casa := rr.H_Shots
  Chutes_Visitante := rr.A_Shots
  Chutes_Gol_Casa := rr.H_SOT
  Chutes_Gol_Visitante := rr.A_SOT
  Faltas_Casa := rr.H_Fouls
  Faltas_Visitante := rr.A_Fouls
  Escanteios_Casa := rr.H_Corners
  Escanteios_Visitante := rr.A_Corners
  Amarelos_Casa := rr.H_Yellow
  Amarelos_Visitante := rr.A_Yellow
  Vermelhos_Casa := rr.H_Red
  Vermelhos_Visitante := rr.A_Red
  Arbitro := rr.Referee.getD "Desconhecido"
  Dif_Gols := rr.FTH_Goals - rr.FTA_Goals
  Total_Gols := rr.FTH_Goals + rr.FTA_Goals
  Vitoria_Casa := if rr.FTH_Goals > rr.FTA_Goals then 1 else 0
  Empate := if rr.FTH_Goals = rr.FTA_Goals then 1 else 0
  Vitoria_Visitante := if rr.FTH_Goals < rr.FTA_Goals then 1 else 0
  Intensidade_Ofensiva := optAdd rr.H_SOT rr.A_SOT
  Total_Faltas := optAdd rr.H_Fouls rr.A_Fouls
  Total_Vermelhos := optAdd rr.H_Red rr.A_Red
  Estatisticas_Completas :=
    rr.H_Shots.isSome && rr.A_Shots.isSome && rr.H_SOT.isSome && rr.A_SOT.isSome &&
    rr.H_Fouls.isSome && rr.A_Fouls.isSome && rr.H_Corners.isSome && rr.A_Corners.isSome &&
    rr.H_Yellow.isSome && rr.A_Yellow.isSome && rr.H_Red.isSome && rr.A_Red.isSome
  Periodo_Completo := !(strLt rr.Season "2000/01")
  Campeao := none

/-- The raw columns read by the feature-engineering block, lines 51-58
(under their original names; the rename of lines 39-48 only relabels). -/
def featureCols : List String :=
  ["FTH Goals", "FTA Goals", "H SOT", "A SOT", "H Fouls", "A Fouls", "H Red", "A Red"]

/-- The 12 optional statistical columns of `colunas_estatisticas`
(lines 70-73), under their original names. -/
def statCols : List String :=
  ["H Shots", "A Shots", "H SOT", "A SOT", "H Fouls", "A Fouls",
   "H Corners", "A Corners", "H Yellow", "A Yellow", "H Red", "A Red"]

/-- Every raw column that `load_data` actually reads. The three half-time
columns (`HTH Goals`, `HTA Goals`, `HT Result`) are renamed but never read,
so their absence does not make the load fail. -/
def requiredAccessedCols : List String :=
  ["Referee", "Date", "Season", "HomeTeam", "AwayTeam", "FTH Goals", "FTA Goals",
   "FT Result", "H Shots", "A Shots", "H SOT", "A SOT", "H Fouls", "A Fouls",
   "H Corners", "A Corners", "H Yellow", "A Yellow", "H Red", "A Red"]

/-- The loader (`load_data`, lines 31-79). Each guard models one column
access of the Python code, in source order: line 36 reads `Referee`;
lines 51-58 read the eight feature columns; line 61 reads `Date` and raises
`ValueError` on a date outside the `%d/%m/%Y` format; line 62 reads
`FT Result`; lines 66-67 read the two team columns; line 76 reads the 12
statistical columns; line 77 reads `Season`. Accessing an absent column
raises `KeyError`; when every access succeeds the whole table is built. -/
def load_data (csv : RawCSV) : Except PyError (List Row) :=
  if "Referee" ∈ csv.cols then
    if ∀ c ∈ featureCols, c ∈ csv.cols then
      if "Date" ∈ csv.cols then
        if ∀ rr ∈ csv.rows, (parseDate rr.Date).isSome then
          if "FT Result" ∈ csv.cols then
            if "HomeTeam" ∈ csv.cols ∧ "AwayTeam" ∈ csv.cols then
              if ∀ c ∈ statCols, c ∈ csv.cols then
                if "Season" ∈ csv.cols then
                  .ok (csv.rows.map mkRow)
                else .error .keyError
              else .error .keyError
            else .error .keyError
          else .error .keyError
        else .error .valueError
      else .error .keyError
    else .error .keyError
  else .error .keyError

/-! ### Per-team aggregations ("Análise por Time", lines 560-710, and
"Comparação entre Times", lines 730-884) -/

/-- Line 562: the slice of matches in which the team took part,
`df_analise[(Time_Casa == t) | (Time_Visitante == t)]`. -/
def jogos_time (df : List Row) (t : String) : List Row :=
  df.filter (fun r => r.Time_Casa == t || r.Time_Visitante == t)

/-- Lines 571-574: the number of wins of the team inside its slice (home
rows labelled "Vitória Casa" plus away rows labelled "Vitória Visitante"). -/
def vitorias (df : List Row) (t : String) : Nat :=
  ((jogos_time df t).filter (fun r =>
    (r.Time_Casa == t && r.Resultado_Final == some "Vitória Casa") ||
    (r.Time_Visitante == t && r.Resultado_Final == some "Vitória Visitante"))).length

/-- Line 578: the number of draws inside the team's slice. -/
def empates (df : List Row) (t : String) : Nat :=
  ((jogos_time df t).filter (fun r => r.Resultado_Final == some "Empate")).length

/-- Line 582 (and line 769): the performance percentage
`(vitorias * 3 + empates) / (len(jogos_time) * 3) * 100`. The division is
Python's `/` with no guard, so an empty slice raises `ZeroDivisionError`. -/
def aproveitamento (df : List Row) (t : String) : Except PyError ℚ :=
  (pydiv ((vitorias df t : ℚ) * 3 + (empates df t : ℚ))
    (((jogos_time df t).length : ℚ) * 3)).map (fun x => x * 100)

/-- Lines 625-629: goals scored by the team over its slice (home goals on
home rows plus away goals on away rows). -/
def gols_marcados (df : List Row) (t : String) : Int :=
  (((jogos_time df t).filter (fun r => r.Time_Casa == t)).map
    (fun r => r.Gols_Time_Casa)).sum +
  (((jogos_time df t).filter (fun r => r.Time_Visitante == t)).map
    (fun r => r.Gols_Time_Visitante)).sum

/-- Lines 650-654: the team's shots on target over its slice; pandas
`.sum()` skips NaN, hence `Option.getD 0`. -/
def chutes_gol_feitos (df : List Row) (t : String) : Int :=
  (((jogos_time df t).filter (fun r => r.Time_Casa == t)).map
    (fun r => r.Chutes_Gol_Casa.getD 0)).sum +
  (((jogos_time df t).filter (fun r => r.Time_Visitante == t)).map
    (fun r => r.Chutes_Gol_Visitante.getD 0)).sum

/-- Line 656 (and line 814): the efficiency
`gols_marcados / chutes_gol_feitos * 100 if chutes_gol_feitos > 0 else 0` —
the zero-shots case is an explicit guard, not an error. -/
def eficiencia (df : List Row) (t : String) : ℚ :=
  if 0 < chutes_gol_feitos df t then
    (gols_marcados df t : ℚ) / (chutes_gol_feitos df t : ℚ) * 100
  else 0

/-- Lines 682-685: the head-to-head filter, all rows in which the two named
teams face each other in either home/away order. -/
def confrontos (df : List Row) (t adv : String) : List Row :=
  df.filter (fun r =>
    (r.Time_Casa == t && r.Time_Visitante == adv) ||
    (r.Time_Casa == adv && r.Time_Visitante == t))

/-! ### Grouped sums and the home/away merge ("Top Times", lines 274-296) -/

/-- Ascending lexicographic order on strings, as pandas sorts group keys. -/
def strLe (a b : String) : Prop := strLt b a = false

instance : DecidableRel strLe := fun a b => by unfold strLe; infer_instance

/-- Sorted distinct keys of a groupby (pandas `groupby` sorts keys). -/
def sortedKeys (ks : List String) : List String :=
  List.insertionSort strLe ks.dedup

/-- `df.groupby(key)[val].sum()`: one `(key, sum)` entry per distinct key,
keys sorted ascending. -/
def groupbySum (df : List Row) (key : Row → String) (val : Row → Int) :
    List (String × Int) :=
  (sortedKeys (df.map key)).map
    (fun k => (k, ((df.filter (fun r => key r == k)).map val).sum))

/-- Value of a keyed series at `k`, with default `d` when `k` is absent. -/
def lookupD (s : List (String × Int)) (k : String) (d : Int) : Int :=
  ((s.find? (fun p => p.1 == k)).map Prod.snd).getD d

/-- `a.add(b, fill_value=0)`: the union of the two indexes (sorted), each
key valued by the sum of the two series with an absent side read as 0. -/
def seriesAdd (a b : List (String × Int)) : List (String × Int) :=
  (sortedKeys (a.map Prod.fst ++ b.map Prod.fst)).map
    (fun k => (k, lookupD a k 0 + lookupD b k 0))

/-- Line 275: `df_filtrado.groupby('Time_Casa')['Gols_Time_Casa'].sum()`. -/
def gols_casa (df : List Row) : List (String × Int) :=
  groupbySum df (fun r => r.Time_Casa) (fun r => r.Gols_Time_Casa)

/-- Line 276: `groupby('Time_Visitante')['Gols_Time_Visitante'].sum()`. -/
def gols_visitante (df : List Row) : List (String × Int) :=
  groupbySum df (fun r => r.Time_Visitante) (fun r => r.Gols_Time_Visitante)

/-- Line 277: `gols_casa.add(gols_visitante, fill_value=0)` — the home/away
merge of total goals (the page then sorts it and displays the top 15). -/
def gols_totais (df : List Row) : List (String × Int) :=
  seriesAdd (gols_casa df) (gols_visitante df)

/-- Line 284: `groupby('Time_Casa')['Amarelos_Casa'].sum()` (NaN skipped). -/
def amarelos_casa (df : List Row) : List (String × Int) :=
  groupbySum df (fun r => r.Time_Casa) (fun r => r.Amarelos_Casa.getD 0)

/-- Line 285: `groupby('Time_Visitante')['Amarelos_Visitante'].sum()`. -/
def amarelos_visitante (df : List Row) : List (String × Int) :=
  groupbySum df (fun r => r.Time_Visitante) (fun r => r.Amarelos_Visitante.getD 0)

/-- Line 286: `amarelos_casa.add(amarelos_visitante, fill_value=0)`. -/
def amarelos_totais (df : List Row) : List (String × Int) :=
  seriesAdd (amarelos_casa df) (amarelos_visitante df)

/-! ### Champion determination (lines 399-403)

```
champions = df_analise.groupby(['Temporada','Time_Casa'])['Vitoria_Casa'].sum().reset_index()
champions = champions.sort_values(['Temporada','Vitoria_Casa'], ascending=[True,False])
champions = champions.groupby('Temporada').head(1)
df_analise['Campeao'] = df_analise['Time_Casa'].isin(champions['Time_Casa'])
```

The second sort is modelled as a stable sort; pandas' default quicksort
leaves the relative order of rows with equal keys unspecified, so which of
several tied teams survives `head(1)` is implementation-defined — every
statement proved below is either tie-insensitive or explicitly about ties. -/

/-- Ascending lexicographic order on `(Temporada, Time_Casa)` pairs, the
key order of `groupby(['Temporada','Time_Casa'])`. -/
def pairLe (a b : String × String) : Prop :=
  strLt a.1 b.1 = true ∨ (a.1 = b.1 ∧ strLt b.2 a.2 = false)

instance : DecidableRel pairLe := fun a b => by unfold pairLe; infer_instance

/-- Order of `sort_values(['Temporada','Vitoria_Casa'], ascending=[True,False])`:
season ascending, then win count descending. -/
def chLe (a b : String × String × Int) : Prop :=
  strLt a.1 b.1 = true ∨ (a.1 = b.1 ∧ b.2.2 ≤ a.2.2)

instance : DecidableRel chLe := fun a b => by unfold chLe; infer_instance

instance : IsTrans (String × String × Int) chLe where
  trans a b c hab hbc := by
    rcases hab with h1 | ⟨e1, w1⟩
    · rcases hbc with h2 | ⟨e2, _⟩
      · exact Or.inl (strLt_trans h1 h2)
      · exact Or.inl (e2 ▸ h1)
    · rcases hbc with h2 | ⟨e2, w2⟩
      · exact Or.inl (e1 ▸ h2)
      · exact Or.inr ⟨e1.trans e2, le_trans w2 w1⟩

instance : IsTotal (String × String × Int) chLe where
  total a b := by
    by_cases h1 : strLt a.1 b.1 = true
    · exact Or.inl (Or.inl h1)
    · by_cases h2 : strLt b.1 a.1 = true
      · exact Or.inr (Or.inl h2)
      · have e : a.1 = b.1 :=
          strLt_connex (Bool.not_eq_true _ ▸ h1) (Bool.not_eq_true _ ▸ h2)
        rcases le_total a.2.2 b.2.2 with hw | hw
        · exact Or.inr (Or.inr ⟨e.symm, hw⟩)
        · exact Or.inl (Or.inr ⟨e, hw⟩)

/-- The sorted distinct `(Temporada, Time_Casa)` group keys (line 400). -/
def seasonTeamPairs (df : List Row) : List (String × String) :=
  List.insertionSort pairLe ((df.map (fun r => (r.Temporada, r.Time_Casa))).dedup)

/-- The summed `Vitoria_Casa` of one `(Temporada, Time_Casa)` group: the
team's number of home wins in that season. -/
def sumVitorias (df : List Row) (s t : String) : Int :=
  ((df.filter (fun r => r.Temporada == s && r.Time_Casa == t)).map
    (fun r => r.Vitoria_Casa)).sum

/-- Line 400: the grouped-and-summed table, one `(season, team, homeWins)`
row per group, in group-key order. -/
def champions_table (df : List Row) : List (String × String × Int) :=
  (seasonTeamPairs df).map (fun p => (p.1, p.2, sumVitorias df p.1 p.2))

/-- Line 401: the table re-sorted by season ascending / win count descending. -/
def champions_sorted (df : List Row) : List (String × String × Int) :=
  List.insertionSort chLe (champions_table df)

/-- `groupby('Temporada').head(1)`: keep, in order, the first row of each
season. `seen` accumulates the seasons already emitted. -/
def head1Aux (seen : List String) : List (String × String × Int) → List (String × String × Int)
  | [] => []
  | x :: xs =>
    if seen.contains x.1 then head1Aux seen xs
    else x :: head1Aux (x.1 :: seen) xs

/-- Line 402: one champion row per season. -/
def head1PerSeason (l : List (String × String × Int)) : List (String × String × Int) :=
  head1Aux [] l

/-- The champion team names (`champions['Time_Casa']` of line 403). -/
def championsOf (df : List Row) : List String :=
  (head1PerSeason (champions_sorted df)).map (fun x => x.2.1)

/-- Line 403: `df_analise['Campeao'] = df_analise['Time_Casa'].isin(...)` —
the in-place assignment of the `Campeao` column onto the working table. -/
def championStep (df : List Row) : List Row :=
  df.map (fun r => { r with Campeao := some ((championsOf df).contains r.Time_Casa) })

/-- A team has the (possibly tied) highest home-win count of season `s`. -/
def maxAt (df : List Row) (s t : String) : Prop :=
  (s, t) ∈ seasonTeamPairs df ∧
  ∀ p ∈ seasonTeamPairs df, p.1 = s → sumVitorias df s p.2 ≤ sumVitorias df s t

/-- A team has the strictly highest home-win count of season `s`. -/
def uniqueMaxAt (df : List Row) (s t : String) : Prop :=
  (s, t) ∈ seasonTeamPairs df ∧
  ∀ p ∈ seasonTeamPairs df, p.1 = s → p.2 ≠ t →
    sumVitorias df s p.2 < sumVitorias df s t

instance (df : List Row) (s t : String) : Decidable (maxAt df s t) := by
  unfold maxAt; infer_instance

instance (df : List Row) (s t : String) : Decidable (uniqueMaxAt df s t) := by
  unfold uniqueMaxAt; infer_instance

/-! ### Concrete inputs used to exercise the definitions -/

/-- The full column set of `England CSV.csv`. -/
def allCols : List String :=
  ["Date", "Season", "HomeTeam", "AwayTeam", "FTH Goals", "FTA Goals", "FT Result",
   "HTH Goals", "HTA Goals", "HT Result", "H Shots", "A Shots", "H SOT", "A SOT",
   "H Fouls", "A Fouls", "H Corners", "A Corners", "H Yellow", "A Yellow",
   "H Red", "A Red", "Referee"]

/-- A raw match record with the fields the claims exercise (`sotH`/`sotA`
are the two shots-on-target columns, `stat` fills the remaining optional
statistics). -/
def mkMatch (date season home away : String) (gh ga : Int) (ftr : String)
    (sotH sotA stat : Option Int) : RawRow where
  Date := date
  Season := season
  HomeTeam := home
  AwayTeam := away
  FTH_Goals := gh
  FTA_Goals := ga
  FT_Result := ftr
  HTH_Goals := none
  HTA_Goals := none
  HT_Result := none
  H_Shots := stat
  A_Shots := stat
  H_SOT := sotH
  A_SOT := sotA
  H_Fouls := stat
  A_Fouls := stat
  H_Corners := stat
  A_Corners := stat
  H_Yellow := stat
  A_Yellow := stat
  H_Red := stat
  A_Red := stat
  Referee := none

/-! ### Helper lemmas -/

theorem load_data_ok {csv : RawCSV} {rows : List Row}
    (h : load_data csv = .ok rows) :
    (∀ c ∈ requiredAccessedCols, c ∈ csv.cols) ∧ rows = csv.rows.map mkRow := by
  unfold load_data at h
  split_ifs at h with h1 h2 h3 h4 h5 h6 h7 h8
  · refine ⟨?_, by injection h with h; exact h.symm⟩
    intro c hc
    fin_cases hc
    · exact h1
    · exact h3
    · exact h8
    · exact h6.1
    · exact h6.2
    · exact h2 _ (by simp [featureCols])
    · exact h2 _ (by simp [featureCols])
    · exact h5
    · exact h7 _ (by simp [statCols])
    · exact h7 _ (by simp [statCols])
    · exact h7 _ (by simp [statCols])
    · exact h7 _ (by simp [statCols])
    · exact h7 _ (by simp [statCols])
    · exact h7 _ (by simp [statCols])
    · exact h7 _ (by simp [statCols])
    · exact h7 _ (by simp [statCols])
    · exact h7 _ (by simp [statCols])
    · exact h7 _ (by simp [statCols])
    · exact h7 _ (by simp [statCols])
    · exact h7 _ (by simp [statCols])

theorem length_filter_disjoint_le {α : Type} (p q : α → Bool) :
    ∀ l : List α, (∀ x ∈ l, p x = true → q x = false) →
      (l.filter p).length + (l.filter q).length ≤ l.length := by
  intro l
  induction l with
  | nil => intro _; simp
  | cons a l ih =>
    intro h
    have ih' := ih (fun x hx => h x (List.mem_cons_of_mem a hx))
    by_cases hp : p a = true
    · have hq : q a = false := h a (List.mem_cons_self a l) hp
      simp only [List.filter_cons, hp, if_true, hq, if_false, Bool.false_eq_true,
        List.length_cons]
      omega
    · by_cases hq : q a = true
      · simp only [List.filter_cons, hp, if_false, hq, if_true, Bool.false_eq_true,
          List.length_cons]
        omega
      · simp only [List.filter_cons, hp, hq, if_false, Bool.false_eq_true,
          List.length_cons]
        omega

theorem find?_keyed_map (g : String → Int) :
    ∀ (ks : List String) (t : String), ks.Nodup → t ∈ ks →
      (ks.map (fun k => (k, g k))).find? (fun p => p.1 == t) = some (t, g t) := by
  intro ks
  induction ks with
  | nil => intro t _ ht; cases ht
  | cons a ks ih =>
    intro t hnd ht
    rcases List.mem_cons.mp ht with rfl | ht'
    · rw [List.map_cons, List.find?_cons_of_pos _ (by simp)]
    · have hne : (a == t) = false := by
        refine beq_eq_false_iff_ne.mpr fun h => ?_
        exact (List.nodup_cons.mp hnd).1 (h ▸ ht')
      rw [List.map_cons, List.find?_cons_of_neg _ (by simp [hne])]
      exact ih t (List.nodup_cons.mp hnd).2 ht'

theorem find?_keyed_map_none (g : String → Int) (ks : List String) (t : String)
    (ht : t ∉ ks) :
    (ks.map (fun k => (k, g k))).find? (fun p => p.1 == t) = none := by
  rw [List.find?_eq_none]
  rintro ⟨k, v⟩ hkv hpred
  rcases List.mem_map.mp hkv with ⟨k', hk', he⟩
  have hk : k' = k := congrArg Prod.fst he
  have : k = t := by simpa using hpred
  exact ht (this ▸ hk ▸ hk')

theorem sortedKeys_mem {ks : List String} {t : String} :
    t ∈ sortedKeys ks ↔ t ∈ ks := by
  unfold sortedKeys
  rw [List.mem_insertionSort, List.mem_dedup]

theorem sortedKeys_nodup (ks : List String) : (sortedKeys ks).Nodup :=
  ((List.perm_insertionSort strLe ks.dedup).nodup_iff).mpr (List.nodup_dedup ks)

theorem groupbySum_find? (df : List Row) (key : Row → String) (val : Row → Int)
    (t : String) (ht : ∃ r ∈ df, key r = t) :
    (groupbySum df key val).find? (fun p => p.1 == t) =
      some (t, ((df.filter (fun r => key r == t)).map val).sum) := by
  unfold groupbySum
  refine find?_keyed_map _ _ t (sortedKeys_nodup _) ?_
  rw [sortedKeys_mem]
  rcases ht with ⟨r, hr, hk⟩
  exact List.mem_map.mpr ⟨r, hr, hk⟩

theorem groupbySum_lookupD (df : List Row) (key : Row → String) (val : Row → Int)
    (t : String) :
    lookupD (groupbySum df key val) t 0 =
      ((df.filter (fun r => key r == t)).map val).sum := by
  by_cases h : ∃ r ∈ df, key r = t
  · rw [lookupD, groupbySum_find? df key val t h]; rfl
  · have h1 : (groupbySum df key val).find? (fun p => p.1 == t) = none := by
      unfold groupbySum
      refine find?_keyed_map_none _ _ t ?_
      rw [sortedKeys_mem]
      intro hmem
      rcases List.mem_map.mp hmem with ⟨r, hr, hk⟩
      exact h ⟨r, hr, hk⟩
    have h2 : df.filter (fun r => key r == t) = [] := by
      rw [List.filter_eq_nil_iff]
      intro r hr hkr
      exact h ⟨r, hr, beq_iff_eq.mp hkr⟩
    rw [lookupD, h1, h2]; rfl

theorem seriesAdd_find? (a b : List (String × Int)) (t : String)
    (ht : t ∈ a.map Prod.fst ∨ t ∈ b.map Prod.fst) :
    (seriesAdd a b).find? (fun p => p.1 == t) =
      some (t, lookupD a t 0 + lookupD b t 0) := by
  unfold seriesAdd
  refine find?_keyed_map _ _ t (sortedKeys_nodup _) ?_
  rw [sortedKeys_mem, List.mem_append]
  exact ht

theorem groupbySum_keys {df : List Row} {key : Row → String} {val : Row → Int}
    {t : String} (h : ∃ r ∈ df, key r = t) :
    t ∈ (groupbySum df key val).map Prod.fst := by
  unfold groupbySum
  rw [List.map_map]
  rcases h with ⟨r, hr, hk⟩
  refine List.mem_map.mpr ⟨t, ?_, rfl⟩
  rw [sortedKeys_mem]
  exact List.mem_map.mpr ⟨r, hr, hk⟩

theorem head1Aux_mem_of_find? :
    ∀ (l : List (String × String × Int)) (seen : List String) (s : String)
      (x : String × String × Int),
      l.find? (fun y => y.1 == s) = some x → s ∉ seen → x ∈ head1Aux seen l := by
  intro l
  induction l with
  | nil => intro seen s x h _; simp [List.find?] at h
  | cons a l ih =>
    intro seen s x h hs
    by_cases ha : a.1 = s
    · rw [List.find?_cons_of_pos _ (by simp [ha])] at h
      injection h with h
      subst h
      cases hc : seen.contains a.1 with
      | true =>
        exact absurd (ha ▸ List.mem_of_elem_eq_true hc) hs
      | false =>
        simp only [head1Aux, hc, Bool.false_eq_true, if_false]
        exact List.mem_cons_self _ _
    · rw [List.find?_cons_of_neg _ (by simp [ha])] at h
      cases hc : seen.contains a.1 with
      | true =>
        simp only [head1Aux, hc, if_true]
        exact ih seen s x h hs
      | false =>
        simp only [head1Aux, hc, Bool.false_eq_true, if_false]
        refine List.mem_cons_of_mem _ (ih (a.1 :: seen) s x h ?_)
        intro hmem
        rcases List.mem_cons.mp hmem with h' | h'
        · exact ha h'.symm
        · exact hs h'

theorem head1Aux_find? :
    ∀ (l : List (String × String × Int)) (seen : List String)
      (x : String × String × Int),
      x ∈ head1Aux seen l →
        x.1 ∉ seen ∧ l.find? (fun y => y.1 == x.1) = some x := by
  intro l
  induction l with
  | nil => intro seen x h; simp [head1Aux] at h
  | cons a l ih =>
    intro seen x h
    cases hc : seen.contains a.1 with
    | true =>
      simp only [head1Aux, hc, if_true] at h
      obtain ⟨h1, h2⟩ := ih seen x h
      refine ⟨h1, ?_⟩
      rw [List.find?_cons_of_neg]
      · exact h2
      · simp only [beq_iff_eq]
        intro he
        exact h1 (he ▸ List.mem_of_elem_eq_true hc)
    | false =>
      simp only [head1Aux, hc, Bool.false_eq_true, if_false] at h
      rcases List.mem_cons.mp h with rfl | h'
      · refine ⟨?_, List.find?_cons_of_pos _ (by simp)⟩
        intro hmem
        have hct : seen.contains x.1 = true := List.elem_eq_true_of_mem hmem
        rw [hct] at hc
        cases hc
      · obtain ⟨h1, h2⟩ := ih (a.1 :: seen) x h'
        have hx1 : x.1 ≠ a.1 ∧ x.1 ∉ seen := by
          constructor
          · intro he; exact h1 (he ▸ List.mem_cons_self _ _)
          · intro hmem; exact h1 (List.mem_cons_of_mem _ hmem)
        refine ⟨hx1.2, ?_⟩
        rw [List.find?_cons_of_neg]
        · exact h2
        · simp only [beq_iff_eq]
          exact fun he => hx1.1 he.symm

theorem sorted_find?_max :
    ∀ l : List (String × String × Int), l.Pairwise chLe →
      ∀ (s : String) (x : String × String × Int),
        l.find? (fun y => y.1 == s) = some x →
        ∀ y ∈ l, y.1 = s → y.2.2 ≤ x.2.2 := by
  intro l
  induction l with
  | nil => intro _ s x h; simp [List.find?] at h
  | cons a l ih =>
    intro hp s x h y hy hys
    by_cases ha : a.1 = s
    · rw [List.find?_cons_of_pos _ (by simp [ha])] at h
      injection h with h
      subst h
      rcases List.mem_cons.mp hy with rfl | hy'
      · exact le_refl _
      · rcases (List.pairwise_cons.mp hp).1 y hy' with hlt | ⟨_, hle⟩
        · rw [ha, hys, strLt_irrefl] at hlt
          cases hlt
        · exact hle
    · rw [List.find?_cons_of_neg _ (by simp [ha])] at h
      rcases List.mem_cons.mp hy with rfl | hy'
      · exact absurd hys ha
      · exact ih (List.pairwise_cons.mp hp).2 s x h y hy' hys

theorem mem_seasonTeamPairs {df : List Row} {s t : String} :
    (s, t) ∈ seasonTeamPairs df ↔ ∃ r ∈ df, r.Temporada = s ∧ r.Time_Casa = t := by
  unfold seasonTeamPairs
  rw [List.mem_insertionSort, List.mem_dedup, List.mem_map]
  constructor
  · rintro ⟨r, hr, he⟩
    refine ⟨r, hr, ?_, ?_⟩
    · exact congrArg Prod.fst he
    · exact congrArg Prod.snd he
  · rintro ⟨r, hr, h1, h2⟩
    exact ⟨r, hr, by rw [h1, h2]⟩

theorem mem_champions_sorted_shape {df : List Row} {x : String × String × Int}
    (hx : x ∈ champions_sorted df) :
    x.2.2 = sumVitorias df x.1 x.2.1 ∧ (x.1, x.2.1) ∈ seasonTeamPairs df := by
  unfold champions_sorted at hx
  rw [List.mem_insertionSort] at hx
  unfold champions_table at hx
  rcases List.mem_map.mp hx with ⟨p, hp, he⟩
  constructor
  · rw [← he]
  · rw [← he]
    simpa using hp

theorem pairs_mem_champions_sorted {df : List Row} {s t : String}
    (h : (s, t) ∈ seasonTeamPairs df) :
    (s, t, sumVitorias df s t) ∈ champions_sorted df := by
  unfold champions_sorted champions_table
  rw [List.mem_insertionSort, List.mem_map]
  exact ⟨(s, t), h, rfl⟩

theorem champions_sorted_pairwise (df : List Row) :
    (champions_sorted df).Pairwise chLe :=
  List.sorted_insertionSort chLe (champions_table df)

theorem aproveitamento_eq_error {df : List Row} {t : String}
    (h : (jogos_time df t).length = 0) :
    aproveitamento df t = .error .zeroDivisionError := by
  simp only [aproveitamento, h, pydiv, Nat.cast_zero, zero_mul, if_pos rfl, if_true,
    eq_self_iff_true, Except.map]

theorem aproveitamento_eq_ok {df : List Row} {t : String}
    (h : 0 < (jogos_time df t).length) :
    aproveitamento df t =
      .ok (((vitorias df t : ℚ) * 3 + (empates df t : ℚ)) /
        (((jogos_time df t).length : ℚ) * 3) * 100) := by
  have h1 : ((jogos_time df t).length : ℚ) ≠ 0 := by
    exact_mod_cast Nat.pos_iff_ne_zero.mp h
  have hne : (((jogos_time df t).length : ℚ) * 3) ≠ 0 :=
    mul_ne_zero h1 (by norm_num)
  simp only [aproveitamento, pydiv, if_neg hne, Except.map]

/-! ### Concrete tables exercising the claims -/

/-- A one-match table: Arsenal beat Coventry 3-0 at home. -/
def oneWinTable : List Row :=
  [mkRow (mkMatch "14/08/1993" "1993/94" "Arsenal" "Coventry" 3 0 "H"
    (some 5) (some 4) (some 1))]

/-- A one-match table in which Arsenal score 10 goals with 0 shots on
target recorded (and Coventry 0 with 0). -/
def zeroShotsTable : List Row :=
  [mkRow (mkMatch "05/01/2002" "2001/02" "Arsenal" "Coventry" 10 0 "H"
    (some 0) (some 0) (some 2))]

/-- A one-match table in which Leeds appear only in the away role. -/
def awayOnlyTable : List Row :=
  [mkRow (mkMatch "14/08/1993" "1993/94" "Arsenal" "Leeds" 3 2 "H"
    (some 5) (some 4) (some 1))]

/-- A two-match, one-season table in which Arsenal and Blackburn are tied on
one home win each. -/
def tiedChampionsTable : List Row :=
  [mkRow (mkMatch "14/08/1993" "1993/94" "Arsenal" "Blackburn" 1 0 "H"
    (some 5) (some 4) (some 1)),
   mkRow (mkMatch "21/08/1993" "1993/94" "Blackburn" "Arsenal" 1 0 "H"
    (some 5) (some 4) (some 1))]

/-- A three-match, two-season table: Arsenal are the unique top home-winner
of 1993/94 and Blackburn the unique top home-winner of 1994/95. -/
def twoSeasonsTable : List Row :=
  [mkRow (mkMatch "14/08/1993" "1993/94" "Arsenal" "Blackburn" 1 0 "H"
    (some 5) (some 4) (some 1)),
   mkRow (mkMatch "20/08/1994" "1994/95" "Blackburn" "Arsenal" 1 0 "H"
    (some 5) (some 4) (some 1)),
   mkRow (mkMatch "27/08/1994" "1994/95" "Arsenal" "Blackburn" 0 1 "A"
    (some 5) (some 4) (some 1))]

/-- A raw CSV whose single row carries the invalid full-time result code
`"X"`. -/
def badCodeCSV : RawCSV :=
  ⟨allCols, [mkMatch "01/01/2001" "2000/01" "Arsenal" "Chelsea" 1 1 "X"
    (some 3) (some 3) (some 1)]⟩

/-- A raw CSV lacking the `Season` column. -/
def noSeasonCSV : RawCSV :=
  ⟨["Date", "HomeTeam", "AwayTeam", "FTH Goals", "FTA Goals", "FT Result",
    "HTH Goals", "HTA Goals", "HT Result", "H Shots", "A Shots", "H SOT", "A SOT",
    "H Fouls", "A Fouls", "H Corners", "A Corners", "H Yellow", "A Yellow",
    "H Red", "A Red", "Referee"],
   [mkMatch "01/01/2001" "2000/01" "Arsenal" "Chelsea" 1 1 "H"
    (some 3) (some 3) (some 1)]⟩

/-- One complete well-formed raw match record. -/
def oneRowRaw : RawRow :=
  mkMatch "05/01/2002" "2001/02" "Arsenal" "Chelsea" 2 1 "H"
    (some 6) (some 3) (some 1)

/-- A well-formed raw CSV with one complete match record. -/
def oneRowCSV : RawCSV := ⟨allCols, [oneRowRaw]⟩

/-- A raw match record lacking its corner counts (its other statistics are
present). -/
def missingCornersRaw : RawRow :=
  { mkMatch "14/08/1993" "1993/94" "Arsenal" "Chelsea" 2 1 "H"
      (some 6) (some 3) (some 1) with H_Corners := none, A_Corners := none }

/-! ### Claims -/

/-- Claim C1, counterexample: on an empty team slice (`games = 0`) the
performance-percentage computation of line 582 IS a division-by-zero crash —
`(vitorias * 3 + empates) / (len(jogos_time) * 3)` raises
`ZeroDivisionError`, it neither fails with a guarded explicit error nor
returns a sentinel, contradicting the claim's "never raises a
division-by-zero crash". -/
theorem aproveitamento_empty_slice_crashes :
    aproveitamento [] "Arsenal" = .error .zeroDivisionError := by
  simp [aproveitamento, pydiv, jogos_time, vitorias, empates, Except.map]

/-- Claim C1 (amended): for a team slice with `games = 0` the
performance-percentage computation raises `ZeroDivisionError` (the division
is unguarded); for every slice with `games > 0` it returns exactly
`(wins * 3 + draws) / (games * 3) * 100`. -/
theorem aproveitamento_spec (df : List Row) (t : String) :
    ((jogos_time df t).length = 0 →
      aproveitamento df t = .error .zeroDivisionError) ∧
    (0 < (jogos_time df t).length →
      aproveitamento df t =
        .ok (((vitorias df t : ℚ) * 3 + (empates df t : ℚ)) /
          (((jogos_time df t).length : ℚ) * 3) * 100)) :=
  ⟨aproveitamento_eq_error, aproveitamento_eq_ok⟩

/-- Claim C1, witness: a nonempty slice returns a value, an empty slice
raises, at concrete inputs. -/
theorem aproveitamento_spec_witness :
    (∃ q, aproveitamento oneWinTable "Arsenal" = .ok q) ∧
    aproveitamento [] "Chelsea" = .error .zeroDivisionError :=
  ⟨⟨_, (aproveitamento_spec oneWinTable "Arsenal").2 (by decide)⟩,
   (aproveitamento_spec [] "Chelsea").1 (by decide)⟩

/-- Claim C7: the efficiency computation (line 656 and line 814) returns
`gols_marcados / chutes_gol_feitos * 100` when the team's shots on target
are positive, and exactly 0 — not an error — when they are zero. -/
theorem eficiencia_spec (df : List Row) (t : String) :
    (chutes_gol_feitos df t = 0 → eficiencia df t = 0) ∧
    (0 < chutes_gol_feitos df t →
      eficiencia df t =
        (gols_marcados df t : ℚ) / (chutes_gol_feitos df t : ℚ) * 100) := by
  constructor
  · intro h
    rw [eficiencia, if_neg]
    rw [h]
    exact lt_irrefl 0
  · intro h
    rw [eficiencia, if_pos h]

/-- Claim C7, witness: a team with 10 goals scored and 0 shots on target
recorded gets efficiency 0, not an error. -/
theorem eficiencia_spec_witness :
    gols_marcados zeroShotsTable "Arsenal" = 10 ∧
    chutes_gol_feitos zeroShotsTable "Arsenal" = 0 ∧
    eficiencia zeroShotsTable "Arsenal" = 0 :=
  ⟨by decide, by decide, (eficiencia_spec zeroShotsTable "Arsenal").1 (by decide)⟩

/-- Claim C8: the head-to-head filter (lines 682-685) returns the same row
set for `(A, B)` as for `(B, A)` — the selecting predicate accepts exactly
the rows in which the two named teams appear in either home/away order, so
it is symmetric in the two names (and an empty result is an ordinary value
of the function, not an error). -/
theorem confrontos_symm (df : List Row) (t adv : String) :
    confrontos df t adv = confrontos df adv t ∧
    (∀ r, r ∈ confrontos df t adv ↔ r ∈ df ∧
      ((r.Time_Casa = t ∧ r.Time_Visitante = adv) ∨
        (r.Time_Casa = adv ∧ r.Time_Visitante = t))) := by
  constructor
  · unfold confrontos
    exact List.filter_congr (fun r _ => Bool.or_comm _ _)
  · intro r
    unfold confrontos
    rw [List.mem_filter]
    simp

/-- Claim C10: for every team with at least one game in the slice, the
performance percentage is a value between 0 and 100: the counted wins and
counted draws select disjoint subsets of the team's matches, so
`wins + draws <= games` and the quotient is at most 1. -/
theorem aproveitamento_bounds (df : List Row) (t : String)
    (h : 0 < (jogos_time df t).length) :
    ∃ q, aproveitamento df t = .ok q ∧ 0 ≤ q ∧ q ≤ 100 := by
  have hdisj : ∀ r ∈ jogos_time df t,
      ((r.Time_Casa == t && r.Resultado_Final == some "Vitória Casa") ||
        (r.Time_Visitante == t && r.Resultado_Final == some "Vitória Visitante")) = true →
      (r.Resultado_Final == some "Empate") = false := by
    intro r _ hp
    simp only [Bool.or_eq_true, Bool.and_eq_true, beq_iff_eq] at hp
    rcases hp with ⟨-, hres⟩ | ⟨-, hres⟩ <;> simp [hres]
  have hve : vitorias df t + empates df t ≤ (jogos_time df t).length := by
    simp only [vitorias, empates]
    exact length_filter_disjoint_le _ _ _ hdisj
  have hnpos : (0 : ℚ) < ((jogos_time df t).length : ℚ) * 3 := by
    have : (0 : ℚ) < ((jogos_time df t).length : ℚ) := by exact_mod_cast h
    linarith
  refine ⟨_, aproveitamento_eq_ok h, ?_, ?_⟩
  · apply mul_nonneg _ (by norm_num)
    apply div_nonneg _ (le_of_lt hnpos)
    positivity
  · have hnum : (vitorias df t : ℚ) * 3 + (empates df t : ℚ) ≤
        ((jogos_time df t).length : ℚ) * 3 := by
      have h3 : vitorias df t * 3 + empates df t ≤ (jogos_time df t).length * 3 := by
        omega
      exact_mod_cast h3
    calc ((vitorias df t : ℚ) * 3 + (empates df t : ℚ)) /
          (((jogos_time df t).length : ℚ) * 3) * 100
        ≤ 1 * 100 := by
          apply mul_le_mul_of_nonneg_right _ (by norm_num)
          rw [div_le_one hnpos]
          exact hnum
      _ = 100 := one_mul 100

/-- Claim C10, witness: on a concrete one-match slice the performance
percentage is a defined value between 0 and 100. -/
theorem aproveitamento_bounds_witness :
    ∃ q, aproveitamento oneWinTable "Arsenal" = .ok q ∧ 0 ≤ q ∧ q ≤ 100 :=
  aproveitamento_bounds oneWinTable "Arsenal" (by decide)

/-- Claim C5: in every loaded table, each row's three result flags
`Vitoria_Casa`, `Empate`, `Vitoria_Visitante` are 0/1-valued, sum to exactly
1 (mutually exclusive, exactly one set), and the set flag matches the sign
of the goal-difference column `Dif_Gols`: home win iff positive, draw iff
zero, away win iff negative. -/
theorem result_flags_spec (csv : RawCSV) (rows : List Row)
    (h : load_data csv = .ok rows) :
    ∀ r ∈ rows,
      ((r.Vitoria_Casa = 0 ∨ r.Vitoria_Casa = 1) ∧
        (r.Empate = 0 ∨ r.Empate = 1) ∧
        (r.Vitoria_Visitante = 0 ∨ r.Vitoria_Visitante = 1)) ∧
      r.Vitoria_Casa + r.Empate + r.Vitoria_Visitante = 1 ∧
      (r.Vitoria_Casa = 1 ↔ 0 < r.Dif_Gols) ∧
      (r.Empate = 1 ↔ r.Dif_Gols = 0) ∧
      (r.Vitoria_Visitante = 1 ↔ r.Dif_Gols < 0) := by
  intro r hr
  obtain ⟨-, hrows⟩ := load_data_ok h
  subst hrows
  rcases List.mem_map.mp hr with ⟨rr, -, rfl⟩
  simp only [mkRow, gt_iff_lt]
  split_ifs <;> omega

/-- Claim C5, witness: the flag invariant at a concrete loaded row (a 2-1
home win: flags `(1,0,0)`, positive goal difference). -/
theorem result_flags_spec_witness :
    (mkRow oneRowRaw).Vitoria_Casa + (mkRow oneRowRaw).Empate +
      (mkRow oneRowRaw).Vitoria_Visitante = 1 ∧
    0 < (mkRow oneRowRaw).Dif_Gols :=
  ⟨(result_flags_spec oneRowCSV (oneRowCSV.rows.map mkRow) (by decide)
      (mkRow oneRowRaw) (by decide)).2.1,
   by decide⟩

/-- Claim C6: in every loaded table, a row's `Estatisticas_Completas` flag
is true exactly when none of the 12 optional statistical columns (shots,
shots on target, fouls, corners, yellow cards, red cards, each for home and
away) is missing in that row; and the flag is a function of those 12 raw
fields only — two raw rows agreeing on them get the same flag. -/
theorem estatisticas_completas_spec (csv : RawCSV) (rows : List Row)
    (h : load_data csv = .ok rows) :
    (∀ r ∈ rows, r.Estatisticas_Completas = true ↔
      (r.Chutes_Casa.isSome = true ∧ r.Chutes_Visitante.isSome = true ∧
       r.Chutes_Gol_Casa.isSome = true ∧ r.Chutes_Gol_Visitante.isSome = true ∧
       r.Faltas_Casa.isSome = true ∧ r.Faltas_Visitante.isSome = true ∧
       r.Escanteios_Casa.isSome = true ∧ r.Escanteios_Visitante.isSome = true ∧
       r.Amarelos_Casa.isSome = true ∧ r.Amarelos_Visitante.isSome = true ∧
       r.Vermelhos_Casa.isSome = true ∧ r.Vermelhos_Visitante.isSome = true)) ∧
    (∀ r1 r2 : RawRow, r1.H_Shots = r2.H_Shots → r1.A_Shots = r2.A_Shots →
      r1.H_SOT = r2.H_SOT → r1.A_SOT = r2.A_SOT → r1.H_Fouls = r2.H_Fouls →
      r1.A_Fouls = r2.A_Fouls → r1.H_Corners = r2.H_Corners →
      r1.A_Corners = r2.A_Corners → r1.H_Yellow = r2.H_Yellow →
      r1.A_Yellow = r2.A_Yellow → r1.H_Red = r2.H_Red → r1.A_Red = r2.A_Red →
      (mkRow r1).Estatisticas_Completas = (mkRow r2).Estatisticas_Completas) := by
  constructor
  · intro r hr
    obtain ⟨-, hrows⟩ := load_data_ok h
    subst hrows
    rcases List.mem_map.mp hr with ⟨rr, -, rfl⟩
    simp [mkRow, and_assoc]
  · intro r1 r2 h1 h2 h3 h4 h5 h6 h7 h8 h9 h10 h11 h12
    simp only [mkRow, h1, h2, h3, h4, h5, h6, h7, h8, h9, h10, h11, h12]

/-- Claim C6, witness: a row lacking only its corner counts gets
`Estatisticas_Completas = false`, and a complete concrete loaded row gets it
`true` through the characterisation. -/
theorem estatisticas_completas_spec_witness :
    (mkRow missingCornersRaw).Estatisticas_Completas = false ∧
    (mkRow oneRowRaw).Estatisticas_Completas = true :=
  ⟨by decide,
   ((estatisticas_completas_spec oneRowCSV (oneRowCSV.rows.map mkRow)
      (by decide)).1 (mkRow oneRowRaw) (by decide)).mpr (by decide)⟩

/-- Claim C9: for every team appearing anywhere in the slice, the merged
team total (lines 275-277 for goals, 284-286 for yellow cards) has an entry
for the team, and that entry equals the sum of its home-role contribution
and its away-role contribution; a team appearing in only one role is still
present, its missing role contributing 0 (the `fill_value=0` merge). -/
theorem team_total_merge_spec (df : List Row) (t : String)
    (h : ∃ r ∈ df, r.Time_Casa = t ∨ r.Time_Visitante = t) :
    (gols_totais df).find? (fun p => p.1 == t) =
      some (t,
        ((df.filter (fun r => r.Time_Casa == t)).map (fun r => r.Gols_Time_Casa)).sum +
        ((df.filter (fun r => r.Time_Visitante == t)).map
          (fun r => r.Gols_Time_Visitante)).sum) ∧
    (amarelos_totais df).find? (fun p => p.1 == t) =
      some (t,
        ((df.filter (fun r => r.Time_Casa == t)).map
          (fun r => r.Amarelos_Casa.getD 0)).sum +
        ((df.filter (fun r => r.Time_Visitante == t)).map
          (fun r => r.Amarelos_Visitante.getD 0)).sum) := by
  obtain ⟨r, hr, hor⟩ := h
  constructor
  · have hk : t ∈ (gols_casa df).map Prod.fst ∨ t ∈ (gols_visitante df).map Prod.fst := by
      rcases hor with hh | ha
      · exact Or.inl (groupbySum_keys ⟨r, hr, hh⟩)
      · exact Or.inr (groupbySum_keys ⟨r, hr, ha⟩)
    unfold gols_totais
    rw [seriesAdd_find? _ _ _ hk]
    unfold gols_casa gols_visitante
    rw [groupbySum_lookupD, groupbySum_lookupD]
  · have hk : t ∈ (amarelos_casa df).map Prod.fst ∨
        t ∈ (amarelos_visitante df).map Prod.fst := by
      rcases hor with hh | ha
      · exact Or.inl (groupbySum_keys ⟨r, hr, hh⟩)
      · exact Or.inr (groupbySum_keys ⟨r, hr, ha⟩)
    unfold amarelos_totais
    rw [seriesAdd_find? _ _ _ hk]
    unfold amarelos_casa amarelos_visitante
    rw [groupbySum_lookupD, groupbySum_lookupD]

/-- Claim C9, witness: Leeds appear only as the away team in the concrete
slice, yet the merged goals total contains them, valued by their away goals
(the home side contributing 0). -/
theorem team_total_merge_spec_witness :
    (gols_totais awayOnlyTable).find? (fun p => p.1 == "Leeds") =
      some ("Leeds",
        ((awayOnlyTable.filter (fun r => r.Time_Casa == "Leeds")).map
          (fun r => r.Gols_Time_Casa)).sum +
        ((awayOnlyTable.filter (fun r => r.Time_Visitante == "Leeds")).map
          (fun r => r.Gols_Time_Visitante)).sum) ∧
    (gols_totais awayOnlyTable).find? (fun p => p.1 == "Leeds") =
      some ("Leeds", 2) :=
  ⟨(team_total_merge_spec awayOnlyTable "Leeds" (by decide)).1, by decide⟩

/-- Claim C2, counterexample: a raw table whose single row carries the
full-time result code `"X"` (outside `{H, A, D}`) is NOT rejected — the
load succeeds and returns a table whose result label is merely missing,
contradicting "for every such malformed input the result is an error, not
a table". -/
theorem load_data_bad_code_returns_table :
    (load_data badCodeCSV).toOption.map
      (fun rows => rows.map (fun r => r.Resultado_Final)) = some [none] := by
  decide

/-- Claim C2 (amended): the load fails (with an exception, and no partial
table) whenever a raw column that the loader reads is absent — `Referee`,
`Date`, `Season`, the team columns, the full-time goal columns, the result
code and the 12 statistical columns; the three half-time columns are
renamed but never read, so the claim's "any required source field" holds
only for the read ones. A row's result code outside `{H, A, D}` does NOT
fail the load: `Series.map` silently turns it into a missing label and the
full table is still returned. -/
theorem load_data_spec (csv : RawCSV) :
    ((¬ ∀ c ∈ requiredAccessedCols, c ∈ csv.cols) →
      ∃ e, load_data csv = .error e) ∧
    (∀ rows, load_data csv = .ok rows → rows = csv.rows.map mkRow) ∧
    (∀ rr : RawRow, rr.FT_Result ≠ "H" → rr.FT_Result ≠ "A" → rr.FT_Result ≠ "D" →
      (mkRow rr).Resultado_Final = none) := by
  refine ⟨?_, ?_, ?_⟩
  · intro hmiss
    cases hload : load_data csv with
    | error e => exact ⟨e, rfl⟩
    | ok rows => exact absurd (load_data_ok hload).1 hmiss
  · intro rows h
    exact (load_data_ok h).2
  · intro rr h1 h2 h3
    simp [mkRow, mapResultado, h1, h2, h3]

/-- Claim C2, witness: a raw CSV lacking the `Season` column (a read
column) makes the whole load fail with an exception, at a concrete input. -/
theorem load_data_spec_witness :
    ∃ e, load_data noSeasonCSV = .error e :=
  (load_data_spec noSeasonCSV).1 (by decide)

/-- Claim C3, counterexample: the champion-determination block is not pure —
line 403 writes a `Campeao` column onto the working table `df_analise`, so
running it on a freshly loaded one-row table changes the table, contradicting
"applying any aggregation ... leaves the input table it operates on
unchanged — no column is added". -/
theorem championStep_mutates : championStep oneWinTable ≠ oneWinTable := by
  decide

/-- Claim C3 (amended): champion determination is the one impure
aggregation: it adds the `Campeao` column to the working table (changing
every nonempty freshly-loaded table), while modifying no other column; the
other cited aggregations (the head-to-head filter, the team-slice filter,
and the value-returning computations built from them) only read the table —
their outputs are sublists of the input. The loaded table `df` itself stays
unchanged because `df_analise` is a copy (lines 93-98). -/
theorem aggregation_frame_spec (df : List Row) :
    ((championStep df).map (fun r => { r with Campeao := none }) =
      df.map (fun r => { r with Campeao := none })) ∧
    (df ≠ [] → (∀ r ∈ df, r.Campeao = none) → championStep df ≠ df) ∧
    (∀ t adv, (confrontos df t adv).Sublist df) ∧
    (∀ t, (jogos_time df t).Sublist df) := by
  refine ⟨?_, ?_, ?_, ?_⟩
  · unfold championStep
    rw [List.map_map]
    rfl
  · intro hne hnone heq
    cases df with
    | nil => exact hne rfl
    | cons r rest =>
      have h1 := congrArg List.head? heq
      simp only [championStep, List.map_cons, List.head?_cons] at h1
      have h2 : ({ r with
          Campeao := some ((championsOf (r :: rest)).contains r.Time_Casa) } : Row) = r := by
        injection h1
      have h3 := congrArg Row.Campeao h2
      rw [hnone r (List.mem_cons_self r rest)] at h3
      simp at h3
  · intro t adv
    exact List.filter_sublist _
  · intro t
    exact List.filter_sublist _

/-- Claim C3, witness: the champion step changes a concrete freshly-loaded
table, through the amended statement at a concrete input. -/
theorem aggregation_frame_spec_witness :
    championStep twoSeasonsTable ≠ twoSeasonsTable :=
  (aggregation_frame_spec twoSeasonsTable).2.1 (by decide) (by decide)

/-- Claim C4, counterexample: in a one-season slice in which Arsenal and
Blackburn are tied on the highest home-win count (one each), only one row
survives `groupby('Temporada').head(1)`: Blackburn have the highest count
of home wins in the season, yet their home row is flagged
`Campeao = false`, contradicting "a team that has the highest count of
home-role wins in at least one season of the slice is flagged
champion = true". -/
theorem champion_tie_dropped :
    sumVitorias tiedChampionsTable "1993/94" "Blackburn" =
      sumVitorias tiedChampionsTable "1993/94" "Arsenal" ∧
    (∀ p ∈ seasonTeamPairs tiedChampionsTable, p.1 = "1993/94" →
      sumVitorias tiedChampionsTable "1993/94" p.2 ≤
        sumVitorias tiedChampionsTable "1993/94" "Blackburn") ∧
    (championStep tiedChampionsTable).map (fun r => r.Campeao) =
      [some true, some false] := by
  refine ⟨by decide, by decide, by decide⟩

/-- Claim C4 (amended): exactly one champion is selected per season — the
first, in sort order, of the teams with the highest home-win count of that
season (on ties pandas' sort order decides; the model uses the stable
order). Hence a team that is the strict unique maximiser of home-role wins
in at least one season of the slice is in the champion set, a team whose
home-win count is maximal in no season of the slice is not, and every row
of the updated table is flagged with exactly the membership of its home
team in that set. -/
theorem champion_flag_spec (df : List Row) (t : String) :
    ((∃ s, uniqueMaxAt df s t) → (championsOf df).contains t = true) ∧
    ((∀ s ∈ (seasonTeamPairs df).map Prod.fst, ¬ maxAt df s t) →
      (championsOf df).contains t = false) ∧
    (∀ r ∈ championStep df, r.Campeao = some ((championsOf df).contains r.Time_Casa)) := by
  refine ⟨?_, ?_, ?_⟩
  · rintro ⟨s, hmem, hmax⟩
    have hrow : (s, t, sumVitorias df s t) ∈ champions_sorted df :=
      pairs_mem_champions_sorted hmem
    have hsome : ((champions_sorted df).find? (fun y => y.1 == s)).isSome = true :=
      List.find?_isSome.mpr ⟨_, hrow, by simp⟩
    obtain ⟨x, hx⟩ := Option.isSome_iff_exists.mp hsome
    have hxmem : x ∈ champions_sorted df := List.mem_of_find?_eq_some hx
    have hxs : x.1 = s := by simpa using List.find?_some hx
    obtain ⟨hxval, hxpair⟩ := mem_champions_sorted_shape hxmem
    have hle : sumVitorias df s t ≤ x.2.2 :=
      sorted_find?_max _ (champions_sorted_pairwise df) s x hx _ hrow rfl
    have hteam : x.2.1 = t := by
      by_contra hne
      have hxp : (s, x.2.1) ∈ seasonTeamPairs df := hxs ▸ hxpair
      have hlt := hmax (s, x.2.1) hxp rfl hne
      rw [hxval, hxs] at hle
      exact absurd (lt_of_le_of_lt hle hlt) (lt_irrefl _)
    have hhead : x ∈ head1PerSeason (champions_sorted df) :=
      head1Aux_mem_of_find? _ [] s x hx (by simp)
    refine List.elem_eq_true_of_mem ?_
    unfold championsOf
    exact List.mem_map.mpr ⟨x, hhead, hteam⟩
  · intro hnm
    by_contra hcon
    rw [Bool.not_eq_false] at hcon
    have htm : t ∈ championsOf df := List.mem_of_elem_eq_true hcon
    unfold championsOf at htm
    rcases List.mem_map.mp htm with ⟨x, hhd, hteam⟩
    obtain ⟨-, hfind⟩ := head1Aux_find? _ [] x hhd
    have hxmem : x ∈ champions_sorted df := List.mem_of_find?_eq_some hfind
    obtain ⟨hxval, hxpair⟩ := mem_champions_sorted_shape hxmem
    have hmaxx := sorted_find?_max _ (champions_sorted_pairwise df) x.1 x hfind
    have hismax : maxAt df x.1 t := by
      constructor
      · exact hteam ▸ hxpair
      · intro p hp hps
        have hpp : (p.1, p.2) ∈ seasonTeamPairs df := by simpa using hp
        have hthis := hmaxx _ (pairs_mem_champions_sorted hpp) hps
        rw [hxval, hteam] at hthis
        rw [hps] at hthis
        exact hthis
    exact hnm x.1 (List.mem_map.mpr ⟨(x.1, x.2.1), hxpair, rfl⟩) hismax
  · intro r hr
    unfold championStep at hr
    rcases List.mem_map.mp hr with ⟨r0, -, rfl⟩
    rfl

/-- Claim C4, witness: in the two-season slice, Blackburn are the strict
unique top home-winner of 1994/95, so they land in the champion set even
though Arsenal topped 1993/94. -/
theorem champion_flag_spec_witness :
    (championsOf twoSeasonsTable).contains "Blackburn" = true :=
  (champion_flag_spec twoSeasonsTable "Blackburn").1 ⟨"1994/95", by decide⟩

end PremierLeague
